import Mathlib

/-!
Verification of the go-pcie-tlp-cli repository: a CLI that encodes and
decodes PCI Express Transaction Layer Packets (TLPs) on top of the
`pcie` codec library.  The `TlpType` constant table, the `main` dispatch
and `try_decode` are embedded from `pcie-tlp-cli.go`; the `pcie` codec
library itself (`NewMRd`, `NewMWr`, `NewMRdFromBytes`, `NewMWrFromBytes`,
`NewCplFromBytes`, `DeviceID`) is not part of this repository's sources,
so those operations are modelled from the specification (wire format of
section 6, encode/decode contracts of section 4, the tag quirk of
section 9 that the repository README documents as a known bug).
Machine integers are modelled as `Nat` with explicit masking.
-/

/-! ## Format/Type discriminator constants (from pcie-tlp-cli.go, lines 14-74)

The Go constants `fmtTlpPrefix`, `LocalVendPrefix` and `EndEndVendPrefix`
are spelled `fmtTlpPfx`, `LocalVendPfx` and `EndEndVendPfx` here; all
other names are kept verbatim.  `TlpType` is `uint8` in Go; every value
below is well under 256. -/

def fmt3DWNoData : Nat := 0b000

def fmt4DWNoData : Nat := 0b001

def fmt3DWWithData : Nat := 0b010

def fmt4DWWithData : Nat := 0b011

def fmtTlpPfx : Nat := 0b100

/-- MRd3 is a Memory Read Request encoded with 3 dwords. -/
def MRd3 : Nat := (fmt3DWNoData <<< 5) ||| 0b00000

/-- MRd4 is a Memory Read Request encoded with 4 dwords. -/
def MRd4 : Nat := (fmt4DWNoData <<< 5) ||| 0b00000

/-- MRdLk3 is a Memory Read Request-Locked encoded with 3 dwords. -/
def MRdLk3 : Nat := (fmt3DWNoData <<< 5) ||| 0b00001

/-- MRdLk4 is a Memory Read Request-Locked encoded with 4 dwords. -/
def MRdLk4 : Nat := (fmt4DWNoData <<< 5) ||| 0b00001

/-- MWr3 is a Memory Write Request encoded with 3 dwords. -/
def MWr3 : Nat := (fmt3DWWithData <<< 5) ||| 0b00000

/-- MWr4 is a Memory Write Request encoded with 4 dwords. -/
def MWr4 : Nat := (fmt4DWWithData <<< 5) ||| 0b00000

/-- IORdT is an I/O Read Request. -/
def IORdT : Nat := (fmt3DWNoData <<< 5) ||| 0b00010

/-- IOWrtT is an I/O Write Request. -/
def IOWrtT : Nat := (fmt3DWWithData <<< 5) ||| 0b00010

/-- CfgRd0 is a Configuration Read of Type 0. -/
def CfgRd0 : Nat := (fmt3DWNoData <<< 5) ||| 0b00100

/-- CfgWr0 is a Configuration Write of Type 0. -/
def CfgWr0 : Nat := (fmt3DWWithData <<< 5) ||| 0b00100

/-- CfgRd1 is a Configuration Read of Type 1. -/
def CfgRd1 : Nat := (fmt3DWNoData <<< 5) ||| 0b00101

/-- CfgWr1 is a Configuration Write of Type 1. -/
def CfgWr1 : Nat := (fmt3DWWithData <<< 5) ||| 0b00101

/-- CplE is a Completion without Data. -/
def CplE : Nat := (fmt3DWNoData <<< 5) ||| 0b01010

/-- CplD is a Completion with Data. -/
def CplD : Nat := (fmt3DWWithData <<< 5) ||| 0b01010

/-- CplLk is a Completion for Locked Memory Read without Data. -/
def CplLk : Nat := (fmt3DWNoData <<< 5) ||| 0b01011

/-- CplLkD is a Completion for Locked Memory Read with Data. -/
def CplLkD : Nat := (fmt3DWWithData <<< 5) ||| 0b01011

/-- MRIOV is a Multi-Root I/O Virtualization and Sharing TLP prefix. -/
def MRIOV : Nat := (fmtTlpPfx <<< 5) ||| 0b00000

/-- LocalVendPfx is a Local TLP prefix with vendor sub-field. -/
def LocalVendPfx : Nat := (fmtTlpPfx <<< 5) ||| 0b01110

/-- ExtTPH is an Extended TPH TLP prefix. -/
def ExtTPH : Nat := (fmtTlpPfx <<< 5) ||| 0b10000

/-- PASID is a Process Address Space ID TLP Prefix. -/
def PASID : Nat := (fmtTlpPfx <<< 5) ||| 0b10001

/-- EndEndVendPfx is an End-to-End TLP prefix with vendor sub-field. -/
def EndEndVendPfx : Nat := (fmtTlpPfx <<< 5) ||| 0b11110

/-- The full discriminator table: each constant paired with its format
value (bits 7-5) and its type value (bits 4-0), exactly as declared in
pcie-tlp-cli.go lines 26-74. -/
def tlp_table : List (Nat × Nat × Nat) :=
  [(MRd3, fmt3DWNoData, 0b00000), (MRd4, fmt4DWNoData, 0b00000),
   (MRdLk3, fmt3DWNoData, 0b00001), (MRdLk4, fmt4DWNoData, 0b00001),
   (MWr3, fmt3DWWithData, 0b00000), (MWr4, fmt4DWWithData, 0b00000),
   (IORdT, fmt3DWNoData, 0b00010), (IOWrtT, fmt3DWWithData, 0b00010),
   (CfgRd0, fmt3DWNoData, 0b00100), (CfgWr0, fmt3DWWithData, 0b00100),
   (CfgRd1, fmt3DWNoData, 0b00101), (CfgWr1, fmt3DWWithData, 0b00101),
   (CplE, fmt3DWNoData, 0b01010), (CplD, fmt3DWWithData, 0b01010),
   (CplLk, fmt3DWNoData, 0b01011), (CplLkD, fmt3DWWithData, 0b01011),
   (MRIOV, fmtTlpPfx, 0b00000), (LocalVendPfx, fmtTlpPfx, 0b01110),
   (ExtTPH, fmtTlpPfx, 0b10000), (PASID, fmtTlpPfx, 0b10001),
   (EndEndVendPfx, fmtTlpPfx, 0b11110)]

/-! ## Error taxonomy (spec section 7) -/

/-- Modelled from the spec: the error taxonomy of section 7.  The `pcie`
library's error values are not in this repository's sources; the spec
names these error categories for decode/encode failures. -/
inductive TlpError where
  | MalformedHeader
  | TruncatedBuffer
  | LengthMismatch
  | InvalidAddress
  | InvalidLength
  | InvalidDeviceIDFormat
  | InvalidCompletionStatus
  | UnsupportedType
deriving DecidableEq, Repr

/-! ## Device/Requester ID (spec sections 3 and 4.2) -/

/-- Modelled from the spec: the `pcie.DeviceID` triple (bus 0-255,
device 0-31, function 0-7) of section 3; the library type is not in
this repository's sources. -/
structure DeviceID where
  bus : Nat
  device : Nat
  fn : Nat
deriving DecidableEq, Repr

/-- Modelled from the spec: `pcie.DeviceID.ToUint16`, the 16-bit packing
`bus:8 | device:5 | function:3` of section 3. -/
def DeviceID.ToUint16 (d : DeviceID) : Nat :=
  (d.bus <<< 8) ||| (d.device <<< 3) ||| d.fn

/-- Modelled from the spec: the inverse unpacking of section 4.2, a total
function on 16-bit values. -/
def DeviceID.FromUint16 (x : Nat) : DeviceID :=
  ⟨(x >>> 8) &&& 0xff, (x >>> 3) &&& 0x1f, x &&& 0x7⟩

/-- Single-character hexadecimal digit value. -/
def hexVal (c : Char) : Option Nat :=
  if '0' ≤ c ∧ c ≤ '9' then some (c.toNat - 48)
  else if 'a' ≤ c ∧ c ≤ 'f' then some (c.toNat - 87)
  else if 'A' ≤ c ∧ c ≤ 'F' then some (c.toNat - 55)
  else none

def parseHexNatAux : List Char → Nat → Option Nat
  | [], acc => some acc
  | c :: cs, acc =>
    match hexVal c with
    | none => none
    | some v => parseHexNatAux cs (acc * 16 + v)

/-- Parse a non-empty hexadecimal digit string. -/
def parseHexNat : List Char → Option Nat
  | [] => none
  | cs => parseHexNatAux cs 0

/-- Split a character list at every occurrence of `sep`. -/
def splitOnChar (sep : Char) : List Char → List (List Char)
  | [] => [[]]
  | c :: cs =>
    let r := splitOnChar sep cs
    if c = sep then [] :: r
    else
      match r with
      | h :: t => (c :: h) :: t
      | [] => [[c]]

/-- Modelled from the spec: `pcie.DeviceID.FromString`, parsing the
canonical `bus:device.function` form of section 4.2 with hexadecimal
components, failing with `InvalidDeviceIDFormat` on malformed syntax or
an out-of-range component; the library routine is not in this
repository's sources. -/
def DeviceID.FromString (s : String) : Except TlpError DeviceID :=
  match splitOnChar ':' s.data with
  | [busCs, rest] =>
    match splitOnChar '.' rest with
    | [devCs, fnCs] =>
      match parseHexNat busCs, parseHexNat devCs, parseHexNat fnCs with
      | some b, some d, some f =>
        if b ≤ 0xff ∧ d ≤ 0x1f ∧ f ≤ 0x7 then Except.ok ⟨b, d, f⟩
        else Except.error TlpError.InvalidDeviceIDFormat
      | _, _, _ => Except.error TlpError.InvalidDeviceIDFormat
    | _ => Except.error TlpError.InvalidDeviceIDFormat
  | _ => Except.error TlpError.InvalidDeviceIDFormat

/-! ## Byte-level helpers (wire format of spec section 6) -/

/-- Big-endian 4-byte serialization of a 32-bit value. -/
def u32be (x : Nat) : List Nat :=
  [(x >>> 24) &&& 0xff, (x >>> 16) &&& 0xff, (x >>> 8) &&& 0xff, x &&& 0xff]

/-- Big-endian 8-byte serialization of a 64-bit value. -/
def u64be (x : Nat) : List Nat :=
  [(x >>> 56) &&& 0xff, (x >>> 48) &&& 0xff, (x >>> 40) &&& 0xff,
   (x >>> 32) &&& 0xff, (x >>> 24) &&& 0xff, (x >>> 16) &&& 0xff,
   (x >>> 8) &&& 0xff, x &&& 0xff]

/-- Big-endian interpretation of a byte list. -/
def bytesToNat (l : List Nat) : Nat :=
  l.foldl (fun a b => a * 256 + b) 0

/-- Modelled from the spec: first-dword byte-enable mask, covering the
bytes of the first dword from the address offset upward (section 4.3;
the alignment policy for unaligned transfers is the explicit choice
section 9 requires). -/
def firstBE (addr : Nat) : Nat :=
  (0xf <<< (addr % 4)) &&& 0xf

/-- Modelled from the spec: last-dword byte-enable mask; zero for
single-dword transfers (section 4.3). -/
def lastBE (len : Nat) : Nat :=
  if (len + 3) / 4 = 1 then 0 else 0xf >>> ((4 - len % 4) % 4)

/-- Byte 7 of the request header: last-dword BE in the high nibble,
first-dword BE in the low nibble. -/
def beByte (addr len : Nat) : Nat :=
  (lastBE len <<< 4) ||| firstBE addr

/-! ## Memory Read / Memory Write encoders (spec section 4.3) -/

/-- Modelled from the spec: `pcie.NewMRd` (not in this repository's
sources).  Fails with `InvalidLength` on a zero or over-4096-byte
transfer and `InvalidAddress` on an address not representable in 64
bits; chooses the 3-dword format when the address fits in 32 bits,
otherwise the 4-dword format (sections 4.3 and 6).  Byte 6 of the
header is the tag; the literal `0` there models the observed upstream
quirk of section 9 (and the repository README's known-bug note) that
the library forces the tag to zero regardless of the `tag` argument. -/
def NewMRd (did : DeviceID) (tag addr len : Nat) : Except TlpError (List Nat) :=
  if len = 0 ∨ 4096 < len then Except.error TlpError.InvalidLength
  else if 2 ^ 64 ≤ addr then Except.error TlpError.InvalidAddress
  else Except.ok ((if addr ≤ 0xffffffff then MRd3 else MRd4) ::
    0 :: ((((len + 3) / 4) >>> 8) &&& 0x3) :: (((len + 3) / 4) &&& 0xff) ::
    ((did.ToUint16 >>> 8) &&& 0xff) :: (did.ToUint16 &&& 0xff) ::
    0 :: beByte addr len ::
    (if addr ≤ 0xffffffff then u32be (addr - addr % 4) else u64be (addr - addr % 4)))

/-- Modelled from the spec: `pcie.NewMWr` (not in this repository's
sources).  Takes no tag argument, exactly as the CLI's call
`pcie.NewMWr(did, addr, data_raw_bytes)` shows; the header tag byte
(byte 6) is the literal `0`.  The declared length field is
`ceil(payload_bytes / 4)` (section 3 invariant) and the payload is
appended verbatim after the header. -/
def NewMWr (did : DeviceID) (addr : Nat) (data : List Nat) : Except TlpError (List Nat) :=
  if data.length = 0 ∨ 4096 < data.length then Except.error TlpError.InvalidLength
  else if 2 ^ 64 ≤ addr then Except.error TlpError.InvalidAddress
  else Except.ok ((if addr ≤ 0xffffffff then MWr3 else MWr4) ::
    0 :: ((((data.length + 3) / 4) >>> 8) &&& 0x3) :: (((data.length + 3) / 4) &&& 0xff) ::
    ((did.ToUint16 >>> 8) &&& 0xff) :: (did.ToUint16 &&& 0xff) ::
    0 :: beByte addr data.length ::
    ((if addr ≤ 0xffffffff then u32be (addr - addr % 4) else u64be (addr - addr % 4)) ++ data))

/-! ## Decoders (spec sections 4.1, 4.3, 4.4) -/

/-- Modelled from the spec: the typed Memory Read packet value returned
by `pcie.NewMRdFromBytes` (fields of section 3; the library type is not
in this repository's sources). -/
structure MRdTlp where
  requester : DeviceID
  tag : Nat
  addr : Nat
  lengthBytes : Nat
deriving DecidableEq, Repr

/-- Modelled from the spec: the typed Memory Write packet value returned
by `pcie.NewMWrFromBytes` (fields of section 3). -/
structure MWrTlp where
  requester : DeviceID
  addr : Nat
  data : List Nat
deriving DecidableEq, Repr

/-- Modelled from the spec: the typed Completion packet value returned
by `pcie.NewCplFromBytes` (fields of section 4.4). -/
structure CplTlp where
  completer : DeviceID
  status : Nat
  byteCount : Nat
  requester : DeviceID
  tag : Nat
  lowerAddr : Nat
  data : List Nat
deriving DecidableEq, Repr

/-- Modelled from the spec: `pcie.NewMRdFromBytes` (not in this
repository's sources).  Rejects a buffer shorter than the 3-dword
minimum header (12 bytes) with `MalformedHeader`, nonzero reserved bits
with `MalformedHeader`, a wrong total size for the indicated format with
`TruncatedBuffer`/`LengthMismatch`, and a discriminator that is not a
Memory Read with `UnsupportedType` (sections 4.1, 4.3 and 7). -/
def NewMRdFromBytes (bytes : List Nat) : Except TlpError MRdTlp :=
  if bytes.length < 12 then Except.error TlpError.MalformedHeader
  else if bytes.getD 0 0 = MRd3 then
    if bytes.length ≠ 12 then Except.error TlpError.LengthMismatch
    else if bytes.getD 1 0 ≠ 0 ∨ bytes.getD 2 0 &&& 0xfc ≠ 0 then
      Except.error TlpError.MalformedHeader
    else Except.ok
      ⟨DeviceID.FromUint16 ((bytes.getD 4 0 <<< 8) ||| bytes.getD 5 0),
       bytes.getD 6 0, bytesToNat (bytes.drop 8),
       (((bytes.getD 2 0 &&& 0x3) <<< 8) ||| bytes.getD 3 0) * 4⟩
  else if bytes.getD 0 0 = MRd4 then
    if bytes.length < 16 then Except.error TlpError.TruncatedBuffer
    else if bytes.length ≠ 16 then Except.error TlpError.LengthMismatch
    else if bytes.getD 1 0 ≠ 0 ∨ bytes.getD 2 0 &&& 0xfc ≠ 0 then
      Except.error TlpError.MalformedHeader
    else Except.ok
      ⟨DeviceID.FromUint16 ((bytes.getD 4 0 <<< 8) ||| bytes.getD 5 0),
       bytes.getD 6 0, bytesToNat (bytes.drop 8),
       (((bytes.getD 2 0 &&& 0x3) <<< 8) ||| bytes.getD 3 0) * 4⟩
  else Except.error TlpError.UnsupportedType

/-- Modelled from the spec: `pcie.NewMWrFromBytes` (not in this
repository's sources).  Additionally validates that the declared length
field matches the payload actually present (`LengthMismatch`,
section 4.3 decode contract). -/
def NewMWrFromBytes (bytes : List Nat) : Except TlpError MWrTlp :=
  if bytes.length < 12 then Except.error TlpError.MalformedHeader
  else if bytes.getD 0 0 = MWr3 then
    if bytes.getD 1 0 ≠ 0 ∨ bytes.getD 2 0 &&& 0xfc ≠ 0 then
      Except.error TlpError.MalformedHeader
    else if (bytes.length - 12) = 0 ∨
        ((bytes.length - 12) + 3) / 4 ≠ ((bytes.getD 2 0 &&& 0x3) <<< 8) ||| bytes.getD 3 0 then
      Except.error TlpError.LengthMismatch
    else Except.ok
      ⟨DeviceID.FromUint16 ((bytes.getD 4 0 <<< 8) ||| bytes.getD 5 0),
       bytesToNat ((bytes.drop 8).take 4), bytes.drop 12⟩
  else if bytes.getD 0 0 = MWr4 then
    if bytes.length < 16 then Except.error TlpError.TruncatedBuffer
    else if bytes.getD 1 0 ≠ 0 ∨ bytes.getD 2 0 &&& 0xfc ≠ 0 then
      Except.error TlpError.MalformedHeader
    else if (bytes.length - 16) = 0 ∨
        ((bytes.length - 16) + 3) / 4 ≠ ((bytes.getD 2 0 &&& 0x3) <<< 8) ||| bytes.getD 3 0 then
      Except.error TlpError.LengthMismatch
    else Except.ok
      ⟨DeviceID.FromUint16 ((bytes.getD 4 0 <<< 8) ||| bytes.getD 5 0),
       bytesToNat ((bytes.drop 8).take 8), bytes.drop 16⟩
  else Except.error TlpError.UnsupportedType

/-- Modelled from the spec: `pcie.NewCplFromBytes` (not in this
repository's sources).  Validates that payload presence matches the
with/without-data discriminator, that the byte count declared in the
length field is consistent with the payload when data is present, and
that the 3-bit completion status is one of the defined codes
(Successful 0, Unsupported Request 1, Configuration Request Retry 2,
Completer Abort 4), rejecting reserved codes with
`InvalidCompletionStatus` (section 4.4). -/
def NewCplFromBytes (bytes : List Nat) : Except TlpError CplTlp :=
  if bytes.length < 12 then Except.error TlpError.MalformedHeader
  else if bytes.getD 0 0 = CplE ∨ bytes.getD 0 0 = CplD then
    if bytes.getD 1 0 ≠ 0 ∨ bytes.getD 2 0 &&& 0xfc ≠ 0 then
      Except.error TlpError.MalformedHeader
    else if ¬(bytes.getD 6 0 >>> 5 = 0 ∨ bytes.getD 6 0 >>> 5 = 1 ∨
        bytes.getD 6 0 >>> 5 = 2 ∨ bytes.getD 6 0 >>> 5 = 4) then
      Except.error TlpError.InvalidCompletionStatus
    else if bytes.getD 0 0 = CplE then
      if bytes.length ≠ 12 then Except.error TlpError.LengthMismatch
      else Except.ok
        ⟨DeviceID.FromUint16 ((bytes.getD 4 0 <<< 8) ||| bytes.getD 5 0),
         bytes.getD 6 0 >>> 5,
         ((bytes.getD 6 0 &&& 0xf) <<< 8) ||| bytes.getD 7 0,
         DeviceID.FromUint16 ((bytes.getD 8 0 <<< 8) ||| bytes.getD 9 0),
         bytes.getD 10 0, bytes.getD 11 0 &&& 0x7f, []⟩
    else
      if (bytes.length - 12) = 0 ∨
          ((bytes.length - 12) + 3) / 4 ≠ ((bytes.getD 2 0 &&& 0x3) <<< 8) ||| bytes.getD 3 0 then
        Except.error TlpError.LengthMismatch
      else Except.ok
        ⟨DeviceID.FromUint16 ((bytes.getD 4 0 <<< 8) ||| bytes.getD 5 0),
         bytes.getD 6 0 >>> 5,
         ((bytes.getD 6 0 &&& 0xf) <<< 8) ||| bytes.getD 7 0,
         DeviceID.FromUint16 ((bytes.getD 8 0 <<< 8) ||| bytes.getD 9 0),
         bytes.getD 10 0, bytes.getD 11 0 &&& 0x7f, bytes.drop 12⟩
  else Except.error TlpError.UnsupportedType

/-- Composition of a library decoder with `ToBytes` on the decoded
packet, as `try_decode` prints `hex.EncodeToString(tlp.ToBytes())`.
Re-encoding a packet that was just decoded and validated echoes the
input buffer (README: the tool echoes the bytestream if valid). -/
def decodeEcho {α : Type} (d : List Nat → Except TlpError α) (b : List Nat) :
    Except TlpError (List Nat) :=
  (d b).map (fun _ => b)

/-! ## try_decode and main dispatch (from pcie-tlp-cli.go) -/

/-- The candidate list `all_tlp_types` of pcie-tlp-cli.go line 101. -/
def all_tlp_types : List String := ["MEMRD", "MEMWR", "CPL", "CFGWR"]

/-- Outcome of `try_decode`: either a success print
("Valid <type> Packet:" followed by the re-encoded bytes, then return)
or the accumulated per-type error list printed after the loop. -/
inductive DecOutcome where
  | success (typeName : String) (reencoded : List Nat)
  | failures (errs : List (String × TlpError))
deriving DecidableEq, Repr

/-- Loop body of `try_decode` (pcie-tlp-cli.go lines 210-248), embedded
over the three library decode-and-reencode operations it calls.  Each
supported candidate type that fails appends one labelled error, exactly
as `errs = append(errs, fmt.Errorf("MEMRD: %w", err))` does; the first
success returns immediately; a type string matching no `case` (such as
"CFGWR") falls through the `switch` and continues the loop without
recording anything. -/
def try_decode_go (d1 d2 d3 : List Nat → Except TlpError (List Nat)) (bytes : List Nat) :
    List String → List (String × TlpError) → DecOutcome
  | [], errs => DecOutcome.failures errs
  | t :: rest, errs =>
    if t = "MEMRD" then
      match d1 bytes with
      | Except.error e => try_decode_go d1 d2 d3 bytes rest (errs ++ [("MEMRD", e)])
      | Except.ok out => DecOutcome.success "MEMRD" out
    else if t = "MEMWR" then
      match d2 bytes with
      | Except.error e => try_decode_go d1 d2 d3 bytes rest (errs ++ [("MEMWR", e)])
      | Except.ok out => DecOutcome.success "MEMWR" out
    else if t = "CPL" then
      match d3 bytes with
      | Except.error e => try_decode_go d1 d2 d3 bytes rest (errs ++ [("CPL", e)])
      | Except.ok out => DecOutcome.success "CPL" out
    else try_decode_go d1 d2 d3 bytes rest errs

/-- `try_decode(tlp_raw_bytes, types...)` of pcie-tlp-cli.go, starting
from the empty `errs := []error{}` accumulator. -/
def try_decode (d1 d2 d3 : List Nat → Except TlpError (List Nat)) (bytes : List Nat)
    (types : List String) : DecOutcome :=
  try_decode_go d1 d2 d3 bytes types []

/-- Observable outcome of `main` in encode mode: a Go `panic` with a
string message, a `panic(err)` with a codec error, or the hex dump of
the encoded TLP. -/
inductive MainOutcome where
  | halted (msg : String)
  | haltedErr (e : TlpError)
  | output (bytes : List Nat)
deriving DecidableEq, Repr

/-- Encode-mode control flow of `main` (pcie-tlp-cli.go lines 139-197):
the argument-parsing `switch` accepts "MEMWR" (which parses the payload
and falls through) and "MEMRD", and panics with
"Unsupported type specified" on any other selected type before any
encoder is invoked; the second `switch` then dispatches to
`pcie.NewMRd(did, uint8(*tag), addr, uint32(*length))` or
`pcie.NewMWr(did, addr, data_raw_bytes)`, panicking on an encode
error.  The `uint8`/`uint32` casts are the `% 256` and `% 2^32`. -/
def encode_dispatch (tlp_type : String) (did : DeviceID) (tag addr len : Nat)
    (data : List Nat) : MainOutcome :=
  if tlp_type = "MEMWR" ∨ tlp_type = "MEMRD" then
    if tlp_type = "MEMRD" then
      match NewMRd did (tag % 256) addr (len % 2 ^ 32) with
      | Except.error e => MainOutcome.haltedErr e
      | Except.ok bs => MainOutcome.output bs
    else
      match NewMWr did addr data with
      | Except.error e => MainOutcome.haltedErr e
      | Except.ok bs => MainOutcome.output bs
  else MainOutcome.halted "Unsupported type specified"

/-- Requester `03:04.4` used throughout the spec's scenarios. -/
def did324 : DeviceID := ⟨3, 4, 4⟩

/-! ## Helper lemmas -/

theorem try_decode_go_nil (d1 d2 d3 : List Nat → Except TlpError (List Nat)) (bytes : List Nat)
    (errs : List (String × TlpError)) :
    try_decode_go d1 d2 d3 bytes [] errs = DecOutcome.failures errs := rfl

theorem try_decode_go_memrd (d1 d2 d3 : List Nat → Except TlpError (List Nat)) (bytes : List Nat)
    (rest : List String) (errs : List (String × TlpError)) :
    try_decode_go d1 d2 d3 bytes ("MEMRD" :: rest) errs =
      match d1 bytes with
      | Except.error e => try_decode_go d1 d2 d3 bytes rest (errs ++ [("MEMRD", e)])
      | Except.ok out => DecOutcome.success "MEMRD" out := rfl

theorem try_decode_go_memwr (d1 d2 d3 : List Nat → Except TlpError (List Nat)) (bytes : List Nat)
    (rest : List String) (errs : List (String × TlpError)) :
    try_decode_go d1 d2 d3 bytes ("MEMWR" :: rest) errs =
      match d2 bytes with
      | Except.error e => try_decode_go d1 d2 d3 bytes rest (errs ++ [("MEMWR", e)])
      | Except.ok out => DecOutcome.success "MEMWR" out := rfl

theorem try_decode_go_cpl (d1 d2 d3 : List Nat → Except TlpError (List Nat)) (bytes : List Nat)
    (rest : List String) (errs : List (String × TlpError)) :
    try_decode_go d1 d2 d3 bytes ("CPL" :: rest) errs =
      match d3 bytes with
      | Except.error e => try_decode_go d1 d2 d3 bytes rest (errs ++ [("CPL", e)])
      | Except.ok out => DecOutcome.success "CPL" out := rfl

theorem try_decode_go_cfgwr (d1 d2 d3 : List Nat → Except TlpError (List Nat)) (bytes : List Nat)
    (rest : List String) (errs : List (String × TlpError)) :
    try_decode_go d1 d2 d3 bytes ("CFGWR" :: rest) errs =
      try_decode_go d1 d2 d3 bytes rest errs := rfl

theorem ToUint16_arith (b d f : Nat) (hd : d < 32) (hf : f < 8) :
    DeviceID.ToUint16 ⟨b, d, f⟩ = b * 256 + d * 8 + f := by
  show (b <<< 8) ||| (d <<< 3) ||| f = b * 256 + d * 8 + f
  rw [Nat.shiftLeft_eq, Nat.shiftLeft_eq, Nat.lor_assoc,
    Nat.mul_comm d (2 ^ 3), Nat.mul_comm b (2 ^ 8),
    ← Nat.mul_add_lt_is_or (show f < 2 ^ 3 by omega) d,
    ← Nat.mul_add_lt_is_or (show 2 ^ 3 * d + f < 2 ^ 8 by omega) b]
  omega

/-! ## Claim theorems -/

/-- C2 (counterexample): the claim states that `MWr3 = 0x60`, but the
source defines `MWr3 = (fmt3DWWithData << 5) | 0b00000 = (0b010 << 5) =
0x40`; `0x60` is the value of `MWr4`. -/
theorem mwr3_value_counterexample : MWr3 = 0x40 ∧ MWr3 ≠ 0x60 := by decide

/-- C2 (amended): every constant in the discriminator table equals
`(format <<< 5) ||| type` with the format value in bits 7-5 and the
type value in bits 4-0 (and fits in one byte); MRd3 = 0x00,
MRd4 = 0x20, MWr3 = 0x40, MWr4 = 0x60 = 0x40 | 0x20, CplE = 0x0A,
CplD = 0x4A; and each memory variant's 4-dword constant differs from
its 3-dword constant exactly in bit 5, the lowest format bit. -/
theorem tlp_type_table_values :
    tlp_table.all (fun x => (x.1 == (x.2.1 <<< 5) ||| x.2.2) &&
      (x.1 >>> 5 == x.2.1) && (x.1 &&& 0x1f == x.2.2) && decide (x.1 < 256)) = true ∧
    MRd3 = 0x00 ∧ MRd4 = 0x20 ∧ MWr3 = 0x40 ∧ MWr4 = 0x60 ∧
    CplE = 0x0a ∧ CplD = 0x4a ∧
    MRd4 = (MRd3 ||| 0x20) ∧ MWr4 = (MWr3 ||| 0x20) ∧ MRdLk4 = (MRdLk3 ||| 0x20) := by
  decide

/-- C3 (code bug): encode-then-decode is not the identity on the tag
field.  Encoding a Memory Read for requester 03:04.4 with caller tag
137, address 0x1000 and length 8 bytes, then decoding the produced
bytes, yields the packet with tag 0, not 137: the encoder forces the
tag byte to zero (the known upstream bug recorded in the repository
README and spec section 9), while the spec's round-trip law requires
the original field values back. -/
theorem mrd_roundtrip_drops_tag :
    (NewMRd did324 137 0x1000 8).bind NewMRdFromBytes =
      Except.ok { requester := did324, tag := 0, addr := 0x1000, lengthBytes := 8 } ∧
    (137 : Nat) ≠ 0 := ⟨rfl, by decide⟩

/-- C5 (counterexample): encoding the Memory Write of the scenario
(payload cc cc cc cc ff ff ff ff, device 03:04.4, address
0x18aaffeeddccbbaa, length 8) produces discriminator byte 0x60, and
0x60 is not the 3-dword-with-data Memory Write encoding: MWr3 = 0x40.
(The claim also asserts MWr3 = 0x60, which is false.) -/
theorem mwr_scenario_mwr3_counterexample :
    (NewMWr did324 0x18aaffeeddccbbaa [0xcc, 0xcc, 0xcc, 0xcc, 0xff, 0xff, 0xff, 0xff]).map
      (fun bs => bs.getD 0 0) = Except.ok 0x60 ∧
    MWr3 = 0x40 ∧ (0x60 : Nat) ≠ MWr3 := ⟨rfl, rfl, by decide⟩

/-- C5 (amended): encoding a Memory Write with payload
cc cc cc cc ff ff ff ff, device 03:04.4, tag 137 (ignored — `NewMWr`
takes no tag), address 0x18aaffeeddccbbaa and length 8 bytes produces a
byte sequence whose discriminator byte equals the 4-dword-with-data
Memory Write encoding (MWr4 = 0x60, chosen because the address needs
more than 32 bits) and whose trailing 8 bytes equal the payload
exactly. -/
theorem mwr_scenario_encoding :
    NewMWr did324 0x18aaffeeddccbbaa [0xcc, 0xcc, 0xcc, 0xcc, 0xff, 0xff, 0xff, 0xff] =
      Except.ok [MWr4, 0x00, 0x00, 0x02, 0x03, 0x24, 0x00, 0xfc,
        0x18, 0xaa, 0xff, 0xee, 0xdd, 0xcc, 0xbb, 0xa8,
        0xcc, 0xcc, 0xcc, 0xcc, 0xff, 0xff, 0xff, 0xff] ∧
    MWr4 = 0x60 ∧
    List.drop 16 [MWr4, 0x00, 0x00, 0x02, 0x03, 0x24, 0x00, 0xfc,
        0x18, 0xaa, 0xff, 0xee, 0xdd, 0xcc, 0xbb, 0xa8,
        0xcc, 0xcc, 0xcc, 0xcc, 0xff, 0xff, 0xff, 0xff] =
      [0xcc, 0xcc, 0xcc, 0xcc, 0xff, 0xff, 0xff, 0xff] := ⟨rfl, rfl, rfl⟩

/-- C4: encoding a Memory Read or Memory Write whose address fits in 32
bits produces a TLP whose discriminator byte is the 3-dword format
constant (MRd3 / MWr3), and one whose address needs more than 32 bits
produces the 4-dword constant (MRd4 / MWr4). -/
theorem addr_width_selection (did : DeviceID) (tag addr len : Nat) (data : List Nat) :
    (0 < len → len ≤ 4096 → addr ≤ 0xffffffff →
      ∃ rest, NewMRd did tag addr len = Except.ok (MRd3 :: rest)) ∧
    (0 < len → len ≤ 4096 → 0xffffffff < addr → addr < 2 ^ 64 →
      ∃ rest, NewMRd did tag addr len = Except.ok (MRd4 :: rest)) ∧
    (0 < data.length → data.length ≤ 4096 → addr ≤ 0xffffffff →
      ∃ rest, NewMWr did addr data = Except.ok (MWr3 :: rest)) ∧
    (0 < data.length → data.length ≤ 4096 → 0xffffffff < addr → addr < 2 ^ 64 →
      ∃ rest, NewMWr did addr data = Except.ok (MWr4 :: rest)) := by
  refine ⟨fun h1 h2 h3 => ?_, fun h1 h2 h3 h4 => ?_,
    fun h1 h2 h3 => ?_, fun h1 h2 h3 h4 => ?_⟩
  · unfold NewMRd
    rw [if_neg (by omega), if_neg (by omega), if_pos h3, if_pos h3]
    exact ⟨_, rfl⟩
  · unfold NewMRd
    rw [if_neg (by omega), if_neg (by omega), if_neg (by omega), if_neg (by omega)]
    exact ⟨_, rfl⟩
  · unfold NewMWr
    rw [if_neg (by omega), if_neg (by omega), if_pos h3, if_pos h3]
    exact ⟨_, rfl⟩
  · unfold NewMWr
    rw [if_neg (by omega), if_neg (by omega), if_neg (by omega), if_neg (by omega)]
    exact ⟨_, rfl⟩

/-- Witness for C4 at requester 03:04.4: a 32-bit address (0x1000)
selects MRd3/MWr3 and a 64-bit address (0x18aaffeeddccbbaa) selects
MRd4/MWr4. -/
theorem addr_width_selection_witness :
    (∃ rest, NewMRd did324 137 0x1000 8 = Except.ok (MRd3 :: rest)) ∧
    (∃ rest, NewMRd did324 137 0x18aaffeeddccbbaa 8 = Except.ok (MRd4 :: rest)) ∧
    (∃ rest, NewMWr did324 0x1000 [1, 2, 3, 4] = Except.ok (MWr3 :: rest)) ∧
    (∃ rest, NewMWr did324 0x18aaffeeddccbbaa [1, 2, 3, 4] = Except.ok (MWr4 :: rest)) :=
  ⟨(addr_width_selection did324 137 0x1000 8 [1, 2, 3, 4]).1
      (by decide) (by decide) (by decide),
   (addr_width_selection did324 137 0x18aaffeeddccbbaa 8 [1, 2, 3, 4]).2.1
      (by decide) (by decide) (by decide) (by decide),
   (addr_width_selection did324 137 0x1000 8 [1, 2, 3, 4]).2.2.1
      (by decide) (by decide) (by decide),
   (addr_width_selection did324 137 0x18aaffeeddccbbaa 8 [1, 2, 3, 4]).2.2.2
      (by decide) (by decide) (by decide) (by decide)⟩

/-- C6: the tag byte (byte 6) of every encoded Memory Read or Memory
Write TLP is zero regardless of the caller-supplied tag: `NewMRd` is
insensitive to its tag argument (first conjunct, definitional since the
modelled library forces the tag to zero, per spec section 9 and the
README known-bug note), and `NewMWr` is never given a tag at all (the
CLI calls `pcie.NewMWr(did, addr, data_raw_bytes)`). -/
theorem tag_always_zero (did : DeviceID) (tag tag2 addr len : Nat) (data bs : List Nat) :
    NewMRd did tag addr len = NewMRd did tag2 addr len ∧
    (NewMRd did tag addr len = Except.ok bs → bs.getD 6 255 = 0) ∧
    (NewMWr did addr data = Except.ok bs → bs.getD 6 255 = 0) := by
  refine ⟨rfl, fun h => ?_, fun h => ?_⟩
  · unfold NewMRd at h
    split at h
    · cases h
    · split at h
      · cases h
      · cases h
        rfl
  · unfold NewMWr at h
    split at h
    · cases h
    · split at h
      · cases h
      · cases h
        rfl

/-- Witness for C6: caller tags 137 and 0 give identical Memory Read
encodings, and the concrete encodings of both a Memory Read and a
Memory Write carry 0 in the tag byte. -/
theorem tag_always_zero_witness :
    NewMRd did324 137 0x1000 8 = NewMRd did324 0 0x1000 8 ∧
    [0, 0, 0, 2, 3, 36, 0, 255, 0, 0, 16, 0].getD 6 255 = 0 ∧
    [64, 0, 0, 1, 3, 36, 0, 15, 0, 0, 16, 0, 1, 2, 3, 4].getD 6 255 = 0 :=
  ⟨(tag_always_zero did324 137 0 0x1000 8 [1, 2, 3, 4]
      [0, 0, 0, 2, 3, 36, 0, 255, 0, 0, 16, 0]).1,
   (tag_always_zero did324 137 0 0x1000 8 [1, 2, 3, 4]
      [0, 0, 0, 2, 3, 36, 0, 255, 0, 0, 16, 0]).2.1 rfl,
   (tag_always_zero did324 137 0 0x1000 8 [1, 2, 3, 4]
      [64, 0, 0, 1, 3, 36, 0, 15, 0, 0, 16, 0, 1, 2, 3, 4]).2.2 rfl⟩

/-- C7: Device ID packing and unpacking are mutually inverse on every
in-range triple (bus 0-255, device 0-31, function 0-7), and packing the
result of a successful string parse agrees with packing the parsed
value. -/
theorem device_id_roundtrip :
    (∀ b < 256, ∀ d < 32, ∀ f < 8,
      DeviceID.FromUint16 (DeviceID.ToUint16 ⟨b, d, f⟩) = (⟨b, d, f⟩ : DeviceID)) ∧
    (∀ s x, DeviceID.FromString s = Except.ok x →
      (DeviceID.FromString s).map DeviceID.ToUint16 = Except.ok (DeviceID.ToUint16 x)) := by
  constructor
  · intro b hb d hd f hf
    rw [ToUint16_arith b d f hd hf]
    unfold DeviceID.FromUint16
    rw [show (0xff : Nat) = 2 ^ 8 - 1 from rfl, show (0x1f : Nat) = 2 ^ 5 - 1 from rfl,
      show (0x7 : Nat) = 2 ^ 3 - 1 from rfl, Nat.shiftRight_eq_div_pow,
      Nat.shiftRight_eq_div_pow, Nat.and_pow_two_sub_one_eq_mod,
      Nat.and_pow_two_sub_one_eq_mod, Nat.and_pow_two_sub_one_eq_mod]
    simp only [DeviceID.mk.injEq]
    refine ⟨by omega, by omega, by omega⟩
  · intro s x h
    rw [h]
    rfl

/-- Witness for C7 at the triple (3, 4, 4) and its canonical string
"03:04.4", whose packed form is 0x324. -/
theorem device_id_roundtrip_witness :
    DeviceID.FromUint16 (DeviceID.ToUint16 ⟨3, 4, 4⟩) = (⟨3, 4, 4⟩ : DeviceID) ∧
    (DeviceID.FromString "03:04.4").map DeviceID.ToUint16 = Except.ok 0x324 :=
  ⟨device_id_roundtrip.1 3 (by decide) 4 (by decide) 4 (by decide),
   device_id_roundtrip.2 "03:04.4" ⟨3, 4, 4⟩ rfl⟩

/-- C8: decoding any buffer shorter than the 12-byte minimum header
fails with `MalformedHeader` under every candidate decoder; the
decoders are total Lean functions, so no out-of-bounds access or panic
is possible. -/
theorem short_buffer_rejected (bytes : List Nat) (h : bytes.length < 12) :
    NewMRdFromBytes bytes = Except.error TlpError.MalformedHeader ∧
    NewMWrFromBytes bytes = Except.error TlpError.MalformedHeader ∧
    NewCplFromBytes bytes = Except.error TlpError.MalformedHeader := by
  unfold NewMRdFromBytes NewMWrFromBytes NewCplFromBytes
  rw [if_pos h, if_pos h, if_pos h]
  exact ⟨rfl, rfl, rfl⟩

/-- Witness for C8 at the 3-byte buffer [0, 1, 2]. -/
theorem short_buffer_rejected_witness :
    NewMRdFromBytes [0, 1, 2] = Except.error TlpError.MalformedHeader ∧
    NewMWrFromBytes [0, 1, 2] = Except.error TlpError.MalformedHeader ∧
    NewCplFromBytes [0, 1, 2] = Except.error TlpError.MalformedHeader :=
  short_buffer_rejected [0, 1, 2] (by decide)

/-- C9: in encode mode, every selected type other than "MEMRD" and
"MEMWR" — including "CPL" and "CFGWR", both accepted by the type
selector `all_tlp_types` — makes `main` panic with
"Unsupported type specified" in the argument-parsing switch, before any
encoder runs and independently of every other argument. -/
theorem unsupported_type_halts (t : String) (did : DeviceID) (tag addr len : Nat)
    (data : List Nat) (hmem : t ∈ all_tlp_types) (h1 : t ≠ "MEMRD") (h2 : t ≠ "MEMWR") :
    encode_dispatch t did tag addr len data =
      MainOutcome.halted "Unsupported type specified" ∧
    "CPL" ∈ all_tlp_types ∧ "CFGWR" ∈ all_tlp_types := by
  refine ⟨?_, by decide, by decide⟩
  unfold encode_dispatch
  rw [if_neg (fun hc => hc.elim h2 h1)]

/-- Witness for C9 at selected type "CPL" with arbitrary concrete
arguments. -/
theorem unsupported_type_halts_witness :
    encode_dispatch "CPL" did324 137 0x1000 8 [1, 2, 3, 4] =
      MainOutcome.halted "Unsupported type specified" ∧
    "CPL" ∈ all_tlp_types ∧ "CFGWR" ∈ all_tlp_types :=
  unsupported_type_halts "CPL" did324 137 0x1000 8 [1, 2, 3, 4]
    (by decide) (by decide) (by decide)

/-- C10: `try_decode` tries the default candidate list strictly in
order and returns immediately with the first succeeding candidate's
re-encoded bytes: a MEMRD success is returned whatever the later
decoders would do, a MEMWR success is returned after exactly one MEMRD
failure, and a CPL success after exactly one failure of each earlier
candidate; the accumulated failure outcome (the only path that prints
the per-type errors) is therefore reached only when no candidate
succeeds. -/
theorem try_decode_first_success (d1 d2 d3 : List Nat → Except TlpError (List Nat))
    (bytes out : List Nat) (e1 e2 : TlpError) :
    (d1 bytes = Except.ok out →
      try_decode d1 d2 d3 bytes all_tlp_types = DecOutcome.success "MEMRD" out) ∧
    (d1 bytes = Except.error e1 → d2 bytes = Except.ok out →
      try_decode d1 d2 d3 bytes all_tlp_types = DecOutcome.success "MEMWR" out) ∧
    (d1 bytes = Except.error e1 → d2 bytes = Except.error e2 → d3 bytes = Except.ok out →
      try_decode d1 d2 d3 bytes all_tlp_types = DecOutcome.success "CPL" out) := by
  refine ⟨fun h1 => ?_, fun h1 h2 => ?_, fun h1 h2 h3 => ?_⟩
  · simp only [try_decode, all_tlp_types, try_decode_go_memrd, h1]
  · simp only [try_decode, all_tlp_types, try_decode_go_memrd, try_decode_go_memwr, h1, h2]
  · simp only [try_decode, all_tlp_types, try_decode_go_memrd, try_decode_go_memwr,
      try_decode_go_cpl, h1, h2, h3]

/-- Witness for C10: a valid 12-byte MRd3 buffer decodes as MEMRD on
the first attempt and try_decode echoes it. -/
theorem try_decode_first_success_witness :
    try_decode (decodeEcho NewMRdFromBytes) (decodeEcho NewMWrFromBytes)
      (decodeEcho NewCplFromBytes)
      [0x00, 0x00, 0x00, 0x01, 0x03, 0x24, 0x89, 0x0f, 0x00, 0x00, 0x10, 0x00]
      all_tlp_types =
      DecOutcome.success "MEMRD"
        [0x00, 0x00, 0x00, 0x01, 0x03, 0x24, 0x89, 0x0f, 0x00, 0x00, 0x10, 0x00] :=
  (try_decode_first_success (decodeEcho NewMRdFromBytes) (decodeEcho NewMWrFromBytes)
    (decodeEcho NewCplFromBytes)
    [0x00, 0x00, 0x00, 0x01, 0x03, 0x24, 0x89, 0x0f, 0x00, 0x00, 0x10, 0x00]
    [0x00, 0x00, 0x00, 0x01, 0x03, 0x24, 0x89, 0x0f, 0x00, 0x00, 0x10, 0x00]
    TlpError.MalformedHeader TlpError.MalformedHeader).1 rfl

/-- C1 (counterexample): a "CFGWR" candidate is silently skipped by
`try_decode`: when "CFGWR" is the single user-selected type no decode
is attempted and no error is recorded, and under the default candidate
list of four types only three per-type errors are accumulated. -/
theorem try_decode_cfgwr_counterexample :
    try_decode (decodeEcho NewMRdFromBytes) (decodeEcho NewMWrFromBytes)
      (decodeEcho NewCplFromBytes) [0x60] ["CFGWR"] = DecOutcome.failures [] ∧
    try_decode (decodeEcho NewMRdFromBytes) (decodeEcho NewMWrFromBytes)
      (decodeEcho NewCplFromBytes) [] all_tlp_types =
      DecOutcome.failures [("MEMRD", TlpError.MalformedHeader),
        ("MEMWR", TlpError.MalformedHeader), ("CPL", TlpError.MalformedHeader)] ∧
    all_tlp_types.length = 4 := by decide

/-- C1 (amended): for the supported candidate types MEMRD, MEMWR and
CPL, `try_decode` accumulates exactly one labelled error per attempted
candidate, fails overall only after all of them have failed, and
reports the full list of per-type failures in attempt order; a CFGWR
candidate, however — including as the single user-selected type — is
silently skipped: its decode is never attempted and no error is
recorded for it. -/
theorem try_decode_error_accumulation (d1 d2 d3 : List Nat → Except TlpError (List Nat))
    (bytes : List Nat) (e1 e2 e3 : TlpError)
    (h1 : d1 bytes = Except.error e1) (h2 : d2 bytes = Except.error e2)
    (h3 : d3 bytes = Except.error e3) :
    try_decode d1 d2 d3 bytes all_tlp_types =
      DecOutcome.failures [("MEMRD", e1), ("MEMWR", e2), ("CPL", e3)] ∧
    try_decode d1 d2 d3 bytes ["CFGWR"] = DecOutcome.failures [] := by
  constructor
  · simp only [try_decode, all_tlp_types, try_decode_go_memrd, try_decode_go_memwr,
      try_decode_go_cpl, try_decode_go_cfgwr, try_decode_go_nil, h1, h2, h3,
      List.nil_append, List.cons_append]
  · simp only [try_decode, try_decode_go_cfgwr, try_decode_go_nil]

/-- Witness for C1's amended theorem: on the 3-byte buffer [1, 2, 3]
every supported decoder fails with MalformedHeader and try_decode
reports exactly those three labelled failures. -/
theorem try_decode_error_accumulation_witness :
    try_decode (decodeEcho NewMRdFromBytes) (decodeEcho NewMWrFromBytes)
      (decodeEcho NewCplFromBytes) [1, 2, 3] all_tlp_types =
      DecOutcome.failures [("MEMRD", TlpError.MalformedHeader),
        ("MEMWR", TlpError.MalformedHeader), ("CPL", TlpError.MalformedHeader)] ∧
    try_decode (decodeEcho NewMRdFromBytes) (decodeEcho NewMWrFromBytes)
      (decodeEcho NewCplFromBytes) [1, 2, 3] ["CFGWR"] = DecOutcome.failures [] :=
  try_decode_error_accumulation (decodeEcho NewMRdFromBytes) (decodeEcho NewMWrFromBytes)
    (decodeEcho NewCplFromBytes) [1, 2, 3]
    TlpError.MalformedHeader TlpError.MalformedHeader TlpError.MalformedHeader rfl rfl rfl
